import Mathlib

/-!
Verification of the notebook-to-PDF conversion script
(convert_jupyter_md_pandoc.py).

The script is a linear pipeline: it derives a markdown path and a PDF path
from a constant notebook path, runs an nbconvert subprocess, and on success
runs a pandoc subprocess carrying nine fixed metadata options.  We embed the
path arithmetic (POSIX basename / dirname / join and Python's
str.split(".")[0]) on lists of characters, the two argument vectors, and the
control flow as a trace-producing function of the exit behaviour of the two
external calls.
-/

namespace EyeBlink

/-- Model of POSIX os.path.basename: the suffix of the path after the last
slash (the whole path when it has no slash), computed as p[i:] with
i = p.rfind('/') + 1. -/
def basenameL (p : List Char) : List Char :=
  (p.reverse.takeWhile (fun c => c != '/')).reverse

/-- The head part p[:i] with i = p.rfind('/') + 1: the prefix of the path up
to and including the last slash (empty when the path has no slash).  This is
the intermediate value of POSIX os.path.dirname before trailing slashes are
stripped. -/
def dirheadL (p : List Char) : List Char :=
  (p.reverse.dropWhile (fun c => c != '/')).reverse

/-- Model of Python str.rstrip('/'): remove every trailing slash. -/
def rstripSlashL (l : List Char) : List Char :=
  (l.reverse.dropWhile (fun c => c == '/')).reverse

/-- Model of POSIX os.path.dirname: the prefix up to the last slash, with
trailing slashes stripped unless that prefix is empty or consists only of
slashes. -/
def dirnameL (p : List Char) : List Char :=
  if dirheadL p = [] ∨ (dirheadL p).all (fun c => c == '/') then dirheadL p
  else rstripSlashL (dirheadL p)

/-- Model of POSIX os.path.join on two components: the second component
replaces the first when it is absolute; otherwise it is appended, with a
separating slash unless the first component is empty or already ends in a
slash. -/
def joinL (a b : List Char) : List Char :=
  if b.head? = some '/' then b
  else if a = [] ∨ a.getLast? = some '/' then a ++ b
  else a ++ '/' :: b

/-- Model of Python s.split(".")[0]: the first field of the full split of s
at every dot, i.e. the prefix of s before its first dot (s itself when it
has no dot).  List.splitOn mirrors Python str.split with an explicit
separator, empty fields included, and the split list is never empty. -/
def splitDotHeadL (s : List Char) : List Char :=
  (s.splitOn '.').headI

/-- String wrapper for [basenameL]. -/
def basename (p : String) : String := ⟨basenameL p.data⟩

/-- String wrapper for [dirnameL]. -/
def dirname (p : String) : String := ⟨dirnameL p.data⟩

/-- String wrapper for [joinL]. -/
def joinPath (a b : String) : String := ⟨joinL a.data b.data⟩

/-- Source line 4: the constant notebook path. -/
def notebook_path : String :=
  "/Users/karthik/Desktop/Autoyos/data_analyst_assignment/autoyos_eye_blink_analysis_karthik_dani.ipynb"

/-- Source line 5: base_filename = os.path.basename(p).split(".")[0],
generalised over the notebook path p. -/
def base_filename (p : String) : String :=
  ⟨splitDotHeadL (basename p).data⟩

/-- Source line 6: markdown_path = os.path.join(os.path.dirname(p),
base_filename + ".md"). -/
def markdown_path (p : String) : String :=
  joinPath (dirname p) (base_filename p ++ ".md")

/-- Source line 7: pdf_output_path = os.path.join(os.path.dirname(p),
base_filename + ".pdf"). -/
def pdf_output_path (p : String) : String :=
  joinPath (dirname p) (base_filename p ++ ".pdf")

/-- Source lines 9-19: the metadata dict.  Python dicts preserve insertion
order, so the ordered association list is a faithful model. -/
def metadata : List (String × String) :=
  [("title", "Autoyos: Eye Blink Data Analysis"),
   ("author", "Karthik Dani: 1BM22MD022"),
   ("date", "2024-06-26"),
   ("abstract", "This study investigates blinking behavior using longitudinal data analysis techniques. By analyzing blink durations, interblink intervals, and blink rates over multiple months, we uncover nuanced patterns and variations. Statistical analysis and visualizations reveal trends in blinking habits, shedding light on potential factors influencing these behaviors. This exploration offers valuable insights into the dynamics of blinking patterns."),
   ("subtitle", "Statistically Understanding Blinking Behavior across April, May and June"),
   ("keywords", "Data analysis"),
   ("thanks", "*"),
   ("email", "karthikdani14@gmail.com"),
   ("institute", "BMS College of Engineering, Bangalore")]

/-- Source line 22: the argument vector handed to subprocess.run for the
notebook-conversion stage.  The sixth element carries the literal double
quote of the source string, with no closing quote. -/
def nbconvert_command (p : String) : List String :=
  ["jupyter", "nbconvert", "--to", "markdown",
   "--TagRemovePreprocessor.enabled=True",
   "--TagRemovePreprocessor.remove_cell_tags=\"exclude-output",
   p]

/-- Source lines 29-32: the argument vector handed to subprocess.run for the
document-conversion stage: ["pandoc", markdown_path, "-o", pdf_output_path]
followed by one "--metadata=key=value" string appended per metadata entry,
in dict order. -/
def pandoc_command (p : String) : List String :=
  ["pandoc", markdown_path p, "-o", pdf_output_path p]
    ++ metadata.map (fun kv => "--metadata=" ++ kv.1 ++ "=" ++ kv.2)

/-- Behaviour of one subprocess.run(..., check=True) call: the child process
runs and exits with a code (check=True turns a non-zero code into a
CalledProcessError), or the call itself raises some other exception (for
example FileNotFoundError when the executable is missing). -/
inductive CallResult where
  | exits (code : Nat)
  | raises
deriving DecidableEq

/-- Observable events of a run, in order: a subprocess invocation with its
argument vector, a success message printed with the derived path, or an
error message printed for a caught CalledProcessError (the stage label, the
failed command and its exit code are the data the f-string formats). -/
inductive Event where
  | run (argv : List String)
  | print (msg : String)
  | printError (stage : String) (argv : List String) (code : Nat)
deriving DecidableEq

/-- How the Python process ends: a normal termination with an exit code
(exit(1) on a stage-1 failure, falling off the end of the script otherwise,
which is exit code 0), or an exception propagating uncaught out of the
script. -/
inductive Outcome where
  | exited (code : Nat)
  | uncaught
deriving DecidableEq

/-- Source lines 21-39: the whole pipeline.  r1 and r2 describe how the two
subprocess.run calls behave; the result is the ordered event trace and the
process outcome.  Stage 1 runs nbconvert inside try/except
CalledProcessError: a non-zero exit prints the error and calls exit(1); any
other exception is not caught.  On success the pandoc command is built and
run inside an identical try/except whose handler only prints, so control
falls through to the end of the script and the process exits 0. -/
def runPipeline (r1 r2 : CallResult) (p : String) : List Event × Outcome :=
  match r1 with
  | .raises => ([.run (nbconvert_command p)], .uncaught)
  | .exits c1 =>
    if c1 = 0 then
      let stage1 : List Event :=
        [.run (nbconvert_command p),
         .print ("Converted notebook to Markdown: " ++ markdown_path p)]
      match r2 with
      | .raises => (stage1 ++ [.run (pandoc_command p)], .uncaught)
      | .exits c2 =>
        if c2 = 0 then
          (stage1 ++
            [.run (pandoc_command p),
             .print ("Successfully converted Markdown to PDF: " ++ pdf_output_path p)],
           .exited 0)
        else
          (stage1 ++
            [.run (pandoc_command p),
             .printError "PDF" (pandoc_command p) c2],
           .exited 0)
    else
      ([.run (nbconvert_command p),
        .printError "Markdown" (nbconvert_command p) c1],
       .exited 1)

/-- The base filename as claim C5 words it: the notebook filename minus its
final extension, i.e. everything strictly before the last dot (the whole
filename when it has no dot).  This definition follows the words of the
claim, for comparison with the base filename the source computes by
splitting at the first dot. -/
def stripFinalExtL (s : List Char) : List Char :=
  if '.' ∈ s then ((s.reverse.dropWhile (fun c => c != '.')).tail).reverse else s

/-- String wrapper for [stripFinalExtL] applied to the filename of a path:
the derivation of the base filename that claim C5 describes. -/
def base_filename_claim (p : String) : String :=
  ⟨stripFinalExtL (basename p).data⟩

theorem splitDotHeadL_eq_takeWhile (s : List Char) :
    splitDotHeadL s = s.takeWhile (fun c => c != '.') := by
  induction s with
  | nil => rfl
  | cons c t ih =>
    simp only [splitDotHeadL, List.splitOn] at ih ⊢
    rw [List.splitOnP_cons]
    by_cases h : c = '.'
    · simp [h]
    · obtain ⟨a, as, ha⟩ :=
        List.exists_cons_of_ne_nil (List.splitOnP_ne_nil (p := fun x => x == '.') t)
      rw [ha] at ih ⊢
      simp only [List.headI] at ih
      simp [h, List.takeWhile_cons, ih]

theorem mem_basenameL_ne_slash {p : List Char} {c : Char}
    (h : c ∈ basenameL p) : c ≠ '/' := by
  rw [basenameL, List.mem_reverse] at h
  simpa using List.mem_takeWhile_imp h

theorem mem_baseFilenameL_ne_slash {p : List Char} {c : Char}
    (h : c ∈ splitDotHeadL (basenameL p)) : c ≠ '/' := by
  rw [splitDotHeadL_eq_takeWhile] at h
  exact mem_basenameL_ne_slash ((List.takeWhile_sublist _).subset h)

theorem takeWhile_all {q : Char → Bool} {l : List Char}
    (h : ∀ a ∈ l, q a) : l.takeWhile q = l := by
  induction l with
  | nil => rfl
  | cons a t ih =>
    rw [List.takeWhile_cons_of_pos (h a (List.mem_cons_self a t))]
    rw [ih fun b hb => h b (List.mem_cons_of_mem a hb)]

theorem dropWhile_all {q : Char → Bool} {l : List Char}
    (h : ∀ a ∈ l, q a) : l.dropWhile q = [] := by
  induction l with
  | nil => rfl
  | cons a t ih =>
    rw [List.dropWhile_cons_of_pos (h a (List.mem_cons_self a t))]
    exact ih fun b hb => h b (List.mem_cons_of_mem a hb)

theorem getLast_rstripSlashL (l : List Char) :
    (rstripSlashL l).getLast? ≠ some '/' := by
  rw [rstripSlashL, List.getLast?_eq_head?_reverse, List.reverse_reverse]
  intro hc
  have hd := List.head?_dropWhile_not (fun c => c == '/') l.reverse
  rw [hc] at hd
  simp at hd

theorem dirnameL_all_slash {p : List Char}
    (h : (dirnameL p).getLast? = some '/') :
    (dirnameL p).all (fun c => c == '/') = true := by
  rw [dirnameL] at h ⊢
  by_cases hc : dirheadL p = [] ∨ ((dirheadL p).all fun c => c == '/') = true
  · rw [if_pos hc] at h ⊢
    rcases hc with hnil | hall
    · rw [hnil] at h; simp at h
    · exact hall
  · rw [if_neg hc] at h
    exact absurd h (getLast_rstripSlashL _)

theorem joinL_dirname_basename (d n : List Char)
    (hall : d.getLast? = some '/' → d.all (fun c => c == '/') = true)
    (hn : ∀ c ∈ n, c ≠ '/') (hne : n ≠ []) :
    dirnameL (joinL d n) = d ∧ basenameL (joinL d n) = n := by
  have hq : ∀ c ∈ n.reverse, ((fun c => c != '/') c) = true := by
    intro c hc
    simpa using hn c (List.mem_reverse.mp hc)
  have hhead : ¬ n.head? = some '/' := by
    intro hcontr
    obtain ⟨a, t, ht⟩ := List.exists_cons_of_ne_nil hne
    rw [ht] at hcontr
    simp only [List.head?_cons, Option.some.injEq] at hcontr
    exact hn a (ht ▸ List.mem_cons_self a t) hcontr
  rw [joinL, if_neg hhead]
  by_cases h0 : d = [] ∨ d.getLast? = some '/'
  · rw [if_pos h0]
    rcases h0 with h0 | h0
    · subst h0
      rw [List.nil_append]
      constructor
      · rw [dirnameL, dirheadL, dropWhile_all hq]
        simp
      · rw [basenameL, takeWhile_all hq, List.reverse_reverse]
    · have hdne : d ≠ [] := by
        intro hd
        rw [hd] at h0
        simp at h0
      obtain ⟨a, t, ht⟩ :=
        List.exists_cons_of_ne_nil (show d.reverse ≠ [] by simpa using hdne)
      have ha : a = '/' := by
        rw [List.getLast?_eq_head?_reverse, ht] at h0
        simpa using h0
      constructor
      · have hdh : dirheadL (d ++ n) = d := by
          rw [dirheadL, List.reverse_append, List.dropWhile_append_of_pos hq, ht,
              List.dropWhile_cons_of_neg (by simp [ha]), ← ht, List.reverse_reverse]
        rw [dirnameL, hdh, if_pos (Or.inr (hall h0))]
      · rw [basenameL, List.reverse_append, List.takeWhile_append_of_pos hq, ht,
            List.takeWhile_cons_of_neg (by simp [ha]), List.append_nil,
            List.reverse_reverse]
  · push_neg at h0
    obtain ⟨hdne, hlast⟩ := h0
    rw [if_neg (by push_neg; exact ⟨hdne, hlast⟩)]
    obtain ⟨a, t, ht⟩ :=
      List.exists_cons_of_ne_nil (show d.reverse ≠ [] by simpa using hdne)
    have ha : a ≠ '/' := by
      intro hcontr
      rw [List.getLast?_eq_head?_reverse, ht, hcontr] at hlast
      simp at hlast
    have hsplit : d ++ '/' :: n = (d ++ ['/']) ++ n := by simp
    have hrev : (d ++ ['/']).reverse = '/' :: d.reverse := by simp
    constructor
    · have hdh : dirheadL ((d ++ ['/']) ++ n) = d ++ ['/'] := by
        rw [dirheadL, List.reverse_append, List.dropWhile_append_of_pos hq, hrev,
            List.dropWhile_cons_of_neg (by simp), ← hrev, List.reverse_reverse]
      have hmem : a ∈ d ++ ['/'] :=
        List.mem_append_left _ (List.mem_reverse.mp (ht ▸ List.mem_cons_self a t))
      have hnall : ¬ (d ++ ['/'] = [] ∨ (d ++ ['/']).all (fun c => c == '/') = true) := by
        push_neg
        refine ⟨by simp, ?_⟩
        intro hcontr
        rw [List.all_eq_true] at hcontr
        exact ha (by simpa using hcontr a hmem)
      rw [hsplit, dirnameL, hdh, if_neg hnall, rstripSlashL, hrev,
          List.dropWhile_cons_of_pos (by simp), ht,
          List.dropWhile_cons_of_neg (by simpa using ha), ← ht, List.reverse_reverse]
    · rw [hsplit, basenameL, List.reverse_append, List.takeWhile_append_of_pos hq, hrev,
          List.takeWhile_cons_of_neg (by simp), List.append_nil, List.reverse_reverse]

theorem mem_base_ext_ne_slash {p e : String}
    (he : ∀ c ∈ e.data, c ≠ '/') :
    ∀ c ∈ (base_filename p ++ e).data, c ≠ '/' := by
  intro c hc
  rw [String.data_append] at hc
  rcases List.mem_append.mp hc with hcl | hcr
  · exact mem_baseFilenameL_ne_slash hcl
  · exact he c hcr

theorem base_ext_ne_nil (p e : String) (he : e.data ≠ []) :
    (base_filename p ++ e).data ≠ [] := by
  rw [String.data_append]
  intro hcontr
  exact he (List.append_eq_nil.mp hcontr).2

theorem dirname_markdown_path (p : String) : dirname (markdown_path p) = dirname p :=
  String.ext
    (joinL_dirname_basename (dirnameL p.data) (base_filename p ++ ".md").data
      dirnameL_all_slash (mem_base_ext_ne_slash (by decide))
      (base_ext_ne_nil p ".md" (by decide))).1

theorem basename_markdown_path (p : String) :
    basename (markdown_path p) = base_filename p ++ ".md" :=
  String.ext
    (joinL_dirname_basename (dirnameL p.data) (base_filename p ++ ".md").data
      dirnameL_all_slash (mem_base_ext_ne_slash (by decide))
      (base_ext_ne_nil p ".md" (by decide))).2

theorem dirname_pdf_output_path (p : String) : dirname (pdf_output_path p) = dirname p :=
  String.ext
    (joinL_dirname_basename (dirnameL p.data) (base_filename p ++ ".pdf").data
      dirnameL_all_slash (mem_base_ext_ne_slash (by decide))
      (base_ext_ne_nil p ".pdf" (by decide))).1

theorem basename_pdf_output_path (p : String) :
    basename (pdf_output_path p) = base_filename p ++ ".pdf" :=
  String.ext
    (joinL_dirname_basename (dirnameL p.data) (base_filename p ++ ".pdf").data
      dirnameL_all_slash (mem_base_ext_ne_slash (by decide))
      (base_ext_ne_nil p ".pdf" (by decide))).2

theorem pandoc_ne_nbconvert (p : String) : pandoc_command p ≠ nbconvert_command p := by
  intro h
  have hhead : some "pandoc" = some "jupyter" := by
    rw [show some "pandoc" = (pandoc_command p).head? from rfl, h]
    rfl
  exact absurd (Option.some.inj hhead) (by decide)

/-- C1: if the stage-1 nbconvert subprocess exits with a non-zero code, the
resulting CalledProcessError is caught, the error is reported, the process
terminates with exit code 1, and the stage-2 pandoc subprocess is never
invoked. -/
theorem claim_C1 (p : String) (r2 : CallResult) (c : Nat) (h : c ≠ 0) :
    (runPipeline (.exits c) r2 p).2 = .exited 1 ∧
    Event.printError "Markdown" (nbconvert_command p) c ∈ (runPipeline (.exits c) r2 p).1 ∧
    Event.run (pandoc_command p) ∉ (runPipeline (.exits c) r2 p).1 := by
  have hne := pandoc_ne_nbconvert p
  refine ⟨?_, ?_, ?_⟩
  · simp [runPipeline, if_neg h]
  · simp [runPipeline, if_neg h]
  · simp [runPipeline, if_neg h, hne]

/-- Witness for C1, at exit code 2 of the nbconvert call. -/
theorem claim_C1_witness :
    (runPipeline (.exits 2) (.exits 0) notebook_path).2 = .exited 1 ∧
    Event.printError "Markdown" (nbconvert_command notebook_path) 2 ∈
      (runPipeline (.exits 2) (.exits 0) notebook_path).1 ∧
    Event.run (pandoc_command notebook_path) ∉
      (runPipeline (.exits 2) (.exits 0) notebook_path).1 :=
  claim_C1 notebook_path (.exits 0) 2 (by decide)

/-- C2: if the stage-1 call succeeds and the stage-2 pandoc subprocess exits
with a non-zero code, the pandoc call does happen, the error is reported, and
execution falls through to the end of the script: the process exit code is 0,
not forced to non-zero. -/
theorem claim_C2 (p : String) (c : Nat) (h : c ≠ 0) :
    (runPipeline (.exits 0) (.exits c) p).2 = .exited 0 ∧
    Event.run (pandoc_command p) ∈ (runPipeline (.exits 0) (.exits c) p).1 ∧
    Event.printError "PDF" (pandoc_command p) c ∈ (runPipeline (.exits 0) (.exits c) p).1 := by
  have htr : runPipeline (.exits 0) (.exits c) p =
      ([Event.run (nbconvert_command p),
        Event.print ("Converted notebook to Markdown: " ++ markdown_path p),
        Event.run (pandoc_command p),
        Event.printError "PDF" (pandoc_command p) c], Outcome.exited 0) := by
    simp only [runPipeline, if_neg h]
    rfl
  rw [htr]
  refine ⟨rfl, by simp, by simp⟩

/-- Witness for C2, at exit code 7 of the pandoc call. -/
theorem claim_C2_witness :
    (runPipeline (.exits 0) (.exits 7) notebook_path).2 = .exited 0 ∧
    Event.run (pandoc_command notebook_path) ∈
      (runPipeline (.exits 0) (.exits 7) notebook_path).1 ∧
    Event.printError "PDF" (pandoc_command notebook_path) 7 ∈
      (runPipeline (.exits 0) (.exits 7) notebook_path).1 :=
  claim_C2 notebook_path 7 (by decide)

set_option maxRecDepth 8192 in
/-- C3: the pandoc argument vector is ["pandoc", markdown_path, "-o",
pdf_output_path] followed by exactly one "--metadata=key=value" argument per
entry of the nine-entry metadata table, in table order, with every value
inserted verbatim. -/
theorem claim_C3 (p : String) :
    metadata.map Prod.fst =
      ["title", "author", "date", "abstract", "subtitle", "keywords",
       "thanks", "email", "institute"] ∧
    pandoc_command p =
      ["pandoc", markdown_path p, "-o", pdf_output_path p] ++
      ["--metadata=title=Autoyos: Eye Blink Data Analysis",
       "--metadata=author=Karthik Dani: 1BM22MD022",
       "--metadata=date=2024-06-26",
       "--metadata=abstract=This study investigates blinking behavior using longitudinal data analysis techniques. By analyzing blink durations, interblink intervals, and blink rates over multiple months, we uncover nuanced patterns and variations. Statistical analysis and visualizations reveal trends in blinking habits, shedding light on potential factors influencing these behaviors. This exploration offers valuable insights into the dynamics of blinking patterns.",
       "--metadata=subtitle=Statistically Understanding Blinking Behavior across April, May and June",
       "--metadata=keywords=Data analysis",
       "--metadata=thanks=*",
       "--metadata=email=karthikdani14@gmail.com",
       "--metadata=institute=BMS College of Engineering, Bangalore"] :=
  ⟨by decide,
   congrArg (fun l => ["pandoc", markdown_path p, "-o", pdf_output_path p] ++ l) (by decide)⟩

/-- C4: both derived paths live in the same directory as the notebook and are
named base plus ".md" and base plus ".pdf"; in particular the notebook path
/x/y/notebook.ipynb yields /x/y/notebook.md and /x/y/notebook.pdf. -/
theorem claim_C4 (p : String) :
    dirname (markdown_path p) = dirname p ∧
    dirname (pdf_output_path p) = dirname p ∧
    basename (markdown_path p) = base_filename p ++ ".md" ∧
    basename (pdf_output_path p) = base_filename p ++ ".pdf" ∧
    markdown_path "/x/y/notebook.ipynb" = "/x/y/notebook.md" ∧
    pdf_output_path "/x/y/notebook.ipynb" = "/x/y/notebook.pdf" :=
  ⟨dirname_markdown_path p, dirname_pdf_output_path p, basename_markdown_path p,
   basename_pdf_output_path p, by decide, by decide⟩

/-- C5 counterexample: for the notebook path /x/a.b.ipynb the code derives
base "a" (the prefix before the first dot), while the filename minus its
final extension is "a.b", so the claim as stated fails. -/
theorem claim_C5_counterexample :
    base_filename "/x/a.b.ipynb" ≠ base_filename_claim "/x/a.b.ipynb" ∧
    base_filename "/x/a.b.ipynb" = "a" ∧
    base_filename_claim "/x/a.b.ipynb" = "a.b" := by decide

/-- C5 as amended: the base filename is the prefix of the notebook filename
before its first dot (which coincides with stripping the final extension only
when the filename has at most one dot), and both derived filenames use this
same base, so changing the notebook filename changes both consistently. -/
theorem claim_C5 (p : String) :
    base_filename p = ⟨(basename p).data.takeWhile (fun c => c != '.')⟩ ∧
    basename (markdown_path p) = base_filename p ++ ".md" ∧
    basename (pdf_output_path p) = base_filename p ++ ".pdf" ∧
    dirname (markdown_path p) = dirname p ∧
    dirname (pdf_output_path p) = dirname p :=
  ⟨String.ext (splitDotHeadL_eq_takeWhile _), basename_markdown_path p,
   basename_pdf_output_path p, dirname_markdown_path p, dirname_pdf_output_path p⟩

/-- C6: the stage-1 argument vector is exactly jupyter nbconvert --to
markdown with the two TagRemovePreprocessor flags followed by the notebook
path, and the remove_cell_tags flag value begins with a literal double-quote
character and has no closing quote. -/
theorem claim_C6 (p : String) :
    nbconvert_command p =
      ["jupyter", "nbconvert", "--to", "markdown",
       "--TagRemovePreprocessor.enabled=True",
       "--TagRemovePreprocessor.remove_cell_tags=\"exclude-output", p] ∧
    (nbconvert_command p)[5]? =
      some ("--TagRemovePreprocessor.remove_cell_tags=" ++
        String.singleton '"' ++ "exclude-output") :=
  ⟨rfl, by
    show some "--TagRemovePreprocessor.remove_cell_tags=\"exclude-output" = _
    rw [show "--TagRemovePreprocessor.remove_cell_tags=\"exclude-output" =
      "--TagRemovePreprocessor.remove_cell_tags=" ++
        String.singleton '"' ++ "exclude-output" by decide]⟩

/-- C7: execution is strictly sequential: every trace starts with the
nbconvert invocation, the pandoc invocation appears only strictly later in
the trace, and it appears exactly when stage 1 exited with code 0. -/
theorem claim_C7 (r1 r2 : CallResult) (p : String) :
    ∃ rest, (runPipeline r1 r2 p).1 = Event.run (nbconvert_command p) :: rest ∧
      (Event.run (pandoc_command p) ∈ rest ↔ r1 = CallResult.exits 0) ∧
      Event.run (pandoc_command p) ≠ Event.run (nbconvert_command p) := by
  have hne : Event.run (pandoc_command p) ≠ Event.run (nbconvert_command p) := by
    intro hcontr
    exact pandoc_ne_nbconvert p (Event.run.inj hcontr)
  rcases r1 with c1 | _
  · by_cases h1 : c1 = 0
    · subst h1
      rcases r2 with c2 | _
      · by_cases h2 : c2 = 0
        · subst h2
          refine ⟨[Event.print ("Converted notebook to Markdown: " ++ markdown_path p),
              Event.run (pandoc_command p),
              Event.print ("Successfully converted Markdown to PDF: " ++ pdf_output_path p)],
            rfl, by simp, hne⟩
        · have htr : (runPipeline (.exits 0) (.exits c2) p).1 =
              Event.run (nbconvert_command p) ::
                [Event.print ("Converted notebook to Markdown: " ++ markdown_path p),
                 Event.run (pandoc_command p),
                 Event.printError "PDF" (pandoc_command p) c2] := by
            simp only [runPipeline, if_neg h2]
            rfl
          exact ⟨_, htr, by simp, hne⟩
      · refine ⟨[Event.print ("Converted notebook to Markdown: " ++ markdown_path p),
            Event.run (pandoc_command p)], rfl, by simp, hne⟩
    · have htr : (runPipeline (.exits c1) r2 p).1 =
          Event.run (nbconvert_command p) ::
            [Event.printError "Markdown" (nbconvert_command p) c1] := by
        simp only [runPipeline, if_neg h1]
      exact ⟨_, htr, by simp [hne, h1], hne⟩
  · exact ⟨[], rfl, by simp, hne⟩

/-- C8: the only failure class the script handles is a non-zero exit code of
an external call, caught per stage: whenever both calls merely exit, the
process terminates normally, with code 1 exactly when stage 1 fails; any
other exception raised by an executed call propagates uncaught. -/
theorem claim_C8 (r1 r2 : CallResult) (p : String) :
    ((runPipeline r1 r2 p).2 = Outcome.uncaught ↔
      r1 = CallResult.raises ∨ (r1 = CallResult.exits 0 ∧ r2 = CallResult.raises)) ∧
    (∀ c1 c2, r1 = CallResult.exits c1 → r2 = CallResult.exits c2 →
      (runPipeline r1 r2 p).2 = Outcome.exited (if c1 = 0 then 0 else 1)) := by
  rcases r1 with c1 | _
  · rcases r2 with c2 | _
    · by_cases h1 : c1 = 0 <;> by_cases h2 : c2 = 0 <;>
        constructor <;> simp [runPipeline, h1, h2]
    · by_cases h1 : c1 = 0 <;> constructor <;> simp [runPipeline, h1]
  · constructor <;> simp [runPipeline]

/-- Witness for C8: with both calls exiting 0 the process exits 0, and a
raise in stage 2 after a successful stage 1 propagates uncaught. -/
theorem claim_C8_witness :
    (runPipeline (CallResult.exits 0) (CallResult.exits 5) notebook_path).2 =
      Outcome.exited (if (0 : Nat) = 0 then 0 else 1) ∧
    (runPipeline (CallResult.exits 0) CallResult.raises notebook_path).2 =
      Outcome.uncaught :=
  ⟨(claim_C8 (CallResult.exits 0) (CallResult.exits 5) notebook_path).2 0 5 rfl rfl,
   (claim_C8 (CallResult.exits 0) CallResult.raises notebook_path).1.mpr
     (Or.inr ⟨rfl, rfl⟩)⟩

/-- C9: the base filename is the prefix of the notebook filename before the
first dot, not the last: /x/a.b.ipynb derives /x/a.md and /x/a.pdf, and a
filename beginning with a dot gives the empty base, deriving <dir>/.md and
<dir>/.pdf. -/
theorem claim_C9 :
    (∀ p : String, (base_filename p).data = (basename p).data.takeWhile (fun c => c != '.')) ∧
    base_filename "/x/a.b.ipynb" = "a" ∧
    markdown_path "/x/a.b.ipynb" = "/x/a.md" ∧
    pdf_output_path "/x/a.b.ipynb" = "/x/a.pdf" ∧
    base_filename "/x/.ipynb" = "" ∧
    markdown_path "/x/.ipynb" = "/x/.md" ∧
    pdf_output_path "/x/.ipynb" = "/x/.pdf" :=
  ⟨fun p => splitDotHeadL_eq_takeWhile (basenameL p.data),
   by decide, by decide, by decide, by decide, by decide, by decide⟩

/-- C10: the program is deterministic: in every run each issued argument
vector equals one of two vectors fixed by the constant notebook path and
metadata table, two arbitrary runs agree character for character on any
stage both of them invoke, and the derived paths are fixed strings. -/
theorem claim_C10 (r1 r2 r1' r2' : CallResult) :
    (∀ a, Event.run a ∈ (runPipeline r1 r2 notebook_path).1 →
      a = nbconvert_command notebook_path ∨ a = pandoc_command notebook_path) ∧
    (∀ a b, Event.run a ∈ (runPipeline r1 r2 notebook_path).1 →
      Event.run b ∈ (runPipeline r1' r2' notebook_path).1 →
      a.head? = b.head? → a = b) ∧
    markdown_path notebook_path =
      "/Users/karthik/Desktop/Autoyos/data_analyst_assignment/autoyos_eye_blink_analysis_karthik_dani.md" ∧
    pdf_output_path notebook_path =
      "/Users/karthik/Desktop/Autoyos/data_analyst_assignment/autoyos_eye_blink_analysis_karthik_dani.pdf" := by
  have hrun : ∀ s1 s2 : CallResult, ∀ a,
      Event.run a ∈ (runPipeline s1 s2 notebook_path).1 →
      a = nbconvert_command notebook_path ∨ a = pandoc_command notebook_path := by
    intro s1 s2 a hmem
    rcases s1 with c1 | _
    · by_cases h1 : c1 = 0
      · subst h1
        rcases s2 with c2 | _
        · by_cases h2 : c2 = 0
          · subst h2
            simp [runPipeline] at hmem
            tauto
          · simp [runPipeline, h2] at hmem
            tauto
        · simp [runPipeline] at hmem
          tauto
      · simp [runPipeline, h1] at hmem
        tauto
    · simp [runPipeline] at hmem
      tauto
  have hheads : (nbconvert_command notebook_path).head? = some "jupyter" ∧
      (pandoc_command notebook_path).head? = some "pandoc" := ⟨rfl, rfl⟩
  refine ⟨hrun r1 r2, ?_, by decide, by decide⟩
  intro a b ha hb hab
  rcases hrun r1 r2 a ha with h | h <;> rcases hrun r1' r2' b hb with h' | h' <;>
    subst h <;> subst h' <;> first
    | rfl
    | (rw [hheads.1, hheads.2] at hab; exact absurd (Option.some.inj hab) (by decide))

/-- Witness for C10: under two different environments the pandoc argument
vectors of the two runs coincide. -/
theorem claim_C10_witness :
    pandoc_command notebook_path = pandoc_command notebook_path :=
  (claim_C10 (CallResult.exits 0) (CallResult.exits 0)
      (CallResult.exits 0) (CallResult.exits 3)).2.1
    (pandoc_command notebook_path) (pandoc_command notebook_path)
    (by simp [runPipeline]) (by simp [runPipeline]) rfl

end EyeBlink
